import Mathlib

/-!
Shallow embedding of `src/server.js` (tomscompliance booking backend).

The server exposes `POST /api/book-call`.  The handler destructures five
fields from the request body, validates them by JavaScript truthiness,
normalizes the phone with `phone.replace(/[^0-9+]/g, "")`, appends a row to
a Google Sheet (skipped when the sheets client never initialized), sends a
notification email, and answers with JSON payloads.  Any exception thrown
after validation is caught by the single outer `try/catch` and turned into
a generic 500 response.

External effects (the sheets append and the mail send) are modelled as an
event trace; their outcomes are supplied by an `Env` record, so the handler
is a pure function `Config → Env → ReqBody → Response × List Event`.
-/

namespace TomsCompliance

/-- JavaScript values that can show up in a parsed JSON body field.
`undef` stands for a missing property after destructuring. -/
inductive JVal where
  | undef : JVal
  | null : JVal
  | str : String → JVal
  | num : Int → JVal
  | bool : Bool → JVal
deriving DecidableEq, Repr

/-- JavaScript truthiness, as used by `if (!name || !phone || ...)`. -/
def JVal.truthy : JVal → Bool
  | .undef => false
  | .null => false
  | .str s => !(s == "")
  | .num n => !(n == 0)
  | .bool b => b

/-- String coercion as performed by a JS template literal interpolation. -/
def JVal.toDisplay : JVal → String
  | .undef => "undefined"
  | .null => "null"
  | .str s => s
  | .num n => toString n
  | .bool b => if b then "true" else "false"

/-- `phone.replace(/[^0-9+]/g, "")` (line 118 of `server.js`): delete every
character that is not in the class `[0-9+]`.  Note the regex keeps a plus
sign at any position, not only a leading one. -/
def cleanPhone (phone : String) : String :=
  String.mk (phone.data.filter (fun c => c.isDigit || c == '+'))

/-- Modelled from the spec: the spec sentence says the callable phone is
derived "by removing every character that is not a decimal digit or a
leading `+`" — i.e. a plus sign is kept only in the leading position.
Used to compare the spec wording against `cleanPhone`. -/
def cleanPhoneSpecLeadingPlus (phone : String) : String :=
  match phone.data with
  | '+' :: rest => String.mk ('+' :: rest.filter Char.isDigit)
  | l => String.mk (l.filter Char.isDigit)

/-- The environment-supplied configuration read from `process.env`. -/
structure Config where
  emailUser : String
  adminEmail : String
  googleSheetId : String
deriving DecidableEq, Repr

/-- Request body for `POST /api/book-call` after destructuring the five
fields (a field absent from the JSON object destructures to `undef`). -/
structure ReqBody where
  name : JVal
  phone : JVal
  service : JVal
  date : JVal
  time : JVal
deriving DecidableEq, Repr

/-- Outcomes of the two external collaborators and the server clock, fixed
per request: whether the sheets client initialized at startup, the result
of `sheets.spreadsheets.values.append`, the result of
`transporter.sendMail`, and `new Date().toLocaleString()`. -/
structure Env where
  sheetsAvailable : Bool
  appendResult : Except String Unit
  sendResult : Except String Unit
  now : String

/-- Observable external calls attempted by the handler, in order. -/
inductive Event where
  | append : String → String → List JVal → Event
  | send : String → String → String → String → Event
deriving DecidableEq, Repr

/-- Whether an event is a spreadsheet append attempt. -/
def Event.isAppend : Event → Bool
  | .append _ _ _ => true
  | _ => false

/-- Whether an event is an email send attempt. -/
def Event.isSend : Event → Bool
  | .send _ _ _ _ => true
  | _ => false

/-- `phone.replace(...)` as a JS method call on an arbitrary value: calling
`.replace` on a non-string throws a `TypeError`. -/
def jsReplacePhone : JVal → Except String String
  | .str s => .ok (cleanPhone s)
  | _ => .error "TypeError: phone.replace is not a function"

/-- `saveToGoogleSheet` (lines 91–101): returns immediately when the sheets
client was never initialized, otherwise attempts one append of the five
original field values plus the server timestamp to `Sheet1!A:F`. -/
def saveToGoogleSheet (cfg : Config) (env : Env) (b : ReqBody) :
    Except String Unit × List Event :=
  if env.sheetsAvailable then
    (env.appendResult,
      [Event.append cfg.googleSheetId "Sheet1!A:F"
        [b.name, b.phone, b.service, b.date, b.time, JVal.str env.now]])
  else (.ok (), [])

/-- HTML template chunk before the name interpolation. -/
def htmlC0 : String :=
  "\n        <div style=\"font-family:Arial;background:#f4f6f8;padding:20px\">\n          <div style=\"max-width:600px;margin:auto;background:#fff;border-radius:8px\">\n            <div style=\"background:#0f172a;color:#fff;padding:16px\">\n              <h2>📞 New Free Call Booking</h2>\n            </div>\n            <div style=\"padding:20px\">\n              <p><b>Name:</b> "

/-- HTML template chunk between the name and phone interpolations. -/
def htmlC1 : String := "</p>\n              <p><b>Phone:</b> "

/-- HTML template chunk between the phone and service interpolations. -/
def htmlC2 : String := "</p>\n              <p><b>Service:</b> "

/-- HTML template chunk between the service and date interpolations. -/
def htmlC3 : String := "</p>\n              <p><b>Date:</b> "

/-- HTML template chunk between the date and time interpolations. -/
def htmlC4 : String := "</p>\n              <p><b>Time:</b> "

/-- Start of the HTML template chunk between the time interpolation and
the normalized phone. -/
def htmlC5a : String := "</p>\n              <a href=\""

/-- HTML template chunk between the time interpolation and the normalized
phone inside the `tel:` hyperlink (split after `href=\"` so that the
`tel:`-link property can name the scheme separately). -/
def htmlC5 : String := htmlC5a ++ "tel:"

/-- HTML template chunk after the normalized phone interpolation. -/
def htmlC6 : String :=
  "\"\n                 style=\"display:inline-block;margin-top:15px;background:#16a34a;color:#fff;padding:10px 20px;border-radius:6px;text-decoration:none\">\n                📞 Call Customer\n              </a>\n            </div>\n          </div>\n        </div>\n      "

/-- The email HTML body (lines 126–145): template literal interpolating the
five original fields and the normalized phone. -/
def emailHtml (name phone service date time cp : String) : String :=
  htmlC0 ++ name ++ htmlC1 ++ phone ++ htmlC2 ++ service ++ htmlC3 ++ date ++
    htmlC4 ++ time ++ htmlC5 ++ cp ++ htmlC6

/-- The `transporter.sendMail` argument (lines 122–146), as a send event. -/
def mailMessage (cfg : Config) (b : ReqBody) (cp : String) : Event :=
  Event.send ("\"TOMS Compliance\" <" ++ cfg.emailUser ++ ">") cfg.adminEmail
    "📞 New Free Call Booking"
    (emailHtml b.name.toDisplay b.phone.toDisplay b.service.toDisplay
      b.date.toDisplay b.time.toDisplay cp)

/-- HTTP responses produced for `/api/book-call`.  `json` carries the
status code, the `success` and `message` body fields, and the optional
`received` body field (echoed request body, present only on the 400
validation response).  `corsBlocked` is the framework-level rejection of a
disallowed Origin. -/
inductive Response where
  | json : Nat → Bool → String → Option ReqBody → Response
  | corsBlocked : String → Response
deriving DecidableEq, Repr

/-- The `POST /api/book-call` handler (lines 104–159).  Returns the HTTP
response together with the trace of attempted external calls. -/
def bookCallHandler (cfg : Config) (env : Env) (b : ReqBody) :
    Response × List Event :=
  if !(b.name.truthy && b.phone.truthy && b.service.truthy && b.date.truthy
      && b.time.truthy) then
    (Response.json 400 false "All fields are required" (some b), [])
  else
    match jsReplacePhone b.phone with
    | .error _ => (Response.json 500 false "Server error" none, [])
    | .ok cp =>
      match saveToGoogleSheet cfg env b with
      | (.error _, ev1) => (Response.json 500 false "Server error" none, ev1)
      | (.ok _, ev1) =>
        let ev2 := ev1 ++ [mailMessage cfg b cp]
        match env.sendResult with
        | .error _ => (Response.json 500 false "Server error" none, ev2)
        | .ok _ =>
          (Response.json 200 true "Booking saved & email sent" none, ev2)

/-- The fixed CORS allow-list (lines 20–24). -/
def allowedOrigins : List String :=
  ["http://localhost:5173",
   "https://tomscompliance.com",
   "https://tomscompliance-production.up.railway.app"]

/-- The `cors` origin decision (lines 28–32): `if (!origin) allow;
if (allowedOrigins.includes(origin)) allow; else reject`.  An absent
header is `none`; note that an empty-string Origin is falsy in JS and so
is allowed by the first test. -/
def corsOriginAllowed : Option String → Bool
  | none => true
  | some o => if o == "" then true else allowedOrigins.contains o

/-- Request processing including the CORS middleware: a rejected Origin
never reaches the handler (no external call is attempted). -/
def processRequest (origin : Option String) (cfg : Config) (env : Env)
    (b : ReqBody) : Response × List Event :=
  if corsOriginAllowed origin then bookCallHandler cfg env b
  else (Response.corsBlocked "CORS blocked", [])

/-- `s` contains `sub` as a contiguous substring. -/
def containsSub (s sub : String) : Prop := ∃ a b, s = a ++ sub ++ b

/-- Concrete configuration used in witnesses. -/
def cfgTest : Config :=
  { emailUser := "owner@example.com", adminEmail := "admin@example.com",
    googleSheetId := "sheet-42" }

/-- Concrete environment: sheets initialized, both collaborators succeed. -/
def envTest : Env :=
  { sheetsAvailable := true, appendResult := .ok (), sendResult := .ok (),
    now := "5/1/2024, 10:00:00 AM" }

/-- A fully valid concrete body (the spec scenario of section 8). -/
def bodyJane : ReqBody :=
  { name := JVal.str "Jane Doe", phone := JVal.str "555-1234",
    service := JVal.str "Audit", date := JVal.str "2024-05-01",
    time := JVal.str "10:00" }

/-- A body whose name field is the empty string. -/
def bodyMissingName : ReqBody :=
  { name := JVal.str "", phone := JVal.str "555-1234",
    service := JVal.str "Audit", date := JVal.str "2024-05-01",
    time := JVal.str "10:00" }

/-- The spec scenario "POST with `phone` omitted". -/
def bodyNoPhone : ReqBody := { bodyJane with phone := JVal.undef }

/-- Environment where the mail send throws. -/
def envSendFail : Env := { envTest with sendResult := .error "SMTP error" }

/-- Environment where the sheets client never initialized. -/
def envNoSheets : Env := { envTest with sheetsAvailable := false }

/-- C1 (counterexample): on a request whose name is the empty string, the
400 response body is not exactly `{success:false, message:"All fields are
required"}` — the code adds a `received` field echoing the request body. -/
theorem c1_counterexample :
    (bookCallHandler cfgTest envTest bodyMissingName).1 ≠
        Response.json 400 false "All fields are required" none
    ∧ (bookCallHandler cfgTest envTest bodyMissingName).1 =
        Response.json 400 false "All fields are required" (some bodyMissingName)
    ∧ (bookCallHandler cfgTest envTest bodyMissingName).2 = [] := by decide

/-- C1 (amended): whenever any of the five fields is missing or the empty
string, the handler answers 400 with `success:false`,
`message:"All fields are required"` and a `received` field echoing the
body, and attempts neither external call. -/
theorem c1_missing_field_400 (cfg : Config) (env : Env) (b : ReqBody)
    (h : b.name = JVal.undef ∨ b.name = JVal.str ""
      ∨ b.phone = JVal.undef ∨ b.phone = JVal.str ""
      ∨ b.service = JVal.undef ∨ b.service = JVal.str ""
      ∨ b.date = JVal.undef ∨ b.date = JVal.str ""
      ∨ b.time = JVal.undef ∨ b.time = JVal.str "") :
    bookCallHandler cfg env b =
      (Response.json 400 false "All fields are required" (some b), []) := by
  rcases h with h | h | h | h | h | h | h | h | h | h <;>
    simp [bookCallHandler, JVal.truthy, h]

/-- C1 witness: the omitted-phone scenario hits the amended statement. -/
theorem c1_missing_field_400_witness :
    bookCallHandler cfgTest envTest bodyNoPhone =
      (Response.json 400 false "All fields are required" (some bodyNoPhone),
        []) :=
  c1_missing_field_400 cfgTest envTest bodyNoPhone
    (Or.inr (Or.inr (Or.inl rfl)))

/-- C2 (counterexample): the regex `[^0-9+]` keeps a plus sign at any
position, so `cleanPhone "1+2"` is `"1+2"`, not the `"12"` demanded by the
leading-plus-only reading of the spec. -/
theorem c2_counterexample :
    cleanPhone "1+2" = "1+2"
    ∧ cleanPhoneSpecLeadingPlus "1+2" = "12"
    ∧ cleanPhone "1+2" ≠ cleanPhoneSpecLeadingPlus "1+2" := by decide

/-- C2 (amended): `cleanPhone` keeps exactly the characters that are
decimal digits or plus signs (each with its multiplicity), in their
original order, and removes every other character — plus signs included at
every position, not only a leading one. -/
theorem c2_clean_phone_chars (s : String) (c : Char) :
    ((cleanPhone s).data.count c =
      if c.isDigit || c == '+' then s.data.count c else 0)
    ∧ (cleanPhone s).data.Sublist s.data := by
  constructor
  · by_cases hc : (c.isDigit || c == '+') = true
    · rw [if_pos hc]
      exact List.count_filter hc
    · rw [if_neg hc]
      refine List.count_eq_zero.mpr ?_
      intro hmem
      exact hc (List.mem_filter.mp hmem).2
  · exact List.filter_sublist s.data

/-- C6: phone normalization is idempotent (it is a character filter, and
every character it keeps it keeps again), and the spec example
`"+1 (555) 123-4567" ↦ "+15551234567"` evaluates as stated. -/
theorem c6_clean_phone_idempotent :
    (∀ s : String, cleanPhone (cleanPhone s) = cleanPhone s)
    ∧ cleanPhone "+1 (555) 123-4567" = "+15551234567" := by
  constructor
  · intro s
    have h : ∀ l : List Char,
        List.filter (fun c => c.isDigit || c == '+')
            (List.filter (fun c => c.isDigit || c == '+') l) =
          List.filter (fun c => c.isDigit || c == '+') l := by
      intro l
      rw [List.filter_filter]
      apply List.filter_congr
      intro a _
      exact Bool.and_self _
    exact congrArg String.mk (h s.data)
  · decide

/-- C3: for a body whose five fields are non-empty strings, with the
sheets client initialized and the append succeeding, the handler attempts
exactly one append followed by exactly one send — in that order, whatever
the field contents and whatever the send outcome. -/
theorem c3_exactly_one_append_then_send (cfg : Config) (env : Env)
    (n p sv d t : String)
    (hn : n ≠ "") (hp : p ≠ "") (hsv : sv ≠ "") (hd : d ≠ "") (ht : t ≠ "")
    (hsheets : env.sheetsAvailable = true)
    (happ : env.appendResult = Except.ok ()) :
    (bookCallHandler cfg env
        ⟨JVal.str n, JVal.str p, JVal.str sv, JVal.str d, JVal.str t⟩).2 =
      [Event.append cfg.googleSheetId "Sheet1!A:F"
          [JVal.str n, JVal.str p, JVal.str sv, JVal.str d, JVal.str t,
            JVal.str env.now],
        mailMessage cfg
          ⟨JVal.str n, JVal.str p, JVal.str sv, JVal.str d, JVal.str t⟩
          (cleanPhone p)] := by
  cases hsend : env.sendResult <;>
    simp [bookCallHandler, JVal.truthy, jsReplacePhone, saveToGoogleSheet,
      hn, hp, hsv, hd, ht, hsheets, happ, hsend]

/-- C3 witness: the spec scenario body under the all-success environment. -/
theorem c3_witness :
    (bookCallHandler cfgTest envTest bodyJane).2 =
      [Event.append cfgTest.googleSheetId "Sheet1!A:F"
          [JVal.str "Jane Doe", JVal.str "555-1234", JVal.str "Audit",
            JVal.str "2024-05-01", JVal.str "10:00", JVal.str envTest.now],
        mailMessage cfgTest bodyJane (cleanPhone "555-1234")] :=
  c3_exactly_one_append_then_send cfgTest envTest "Jane Doe" "555-1234"
    "Audit" "2024-05-01" "10:00" (by decide) (by decide) (by decide)
    (by decide) (by decide) rfl rfl

/-- C4: on a valid request, if the send throws after a successful append,
the handler answers 500 `{success:false, message:"Server error"}`; the
append event stays in the trace (no rollback) and the payload is the same
generic one used for every internal failure. -/
theorem c4_send_failure_generic_500 (cfg : Config) (env : Env)
    (n p sv d t e : String)
    (hn : n ≠ "") (hp : p ≠ "") (hsv : sv ≠ "") (hd : d ≠ "") (ht : t ≠ "")
    (hsheets : env.sheetsAvailable = true)
    (happ : env.appendResult = Except.ok ())
    (hsend : env.sendResult = Except.error e) :
    bookCallHandler cfg env
        ⟨JVal.str n, JVal.str p, JVal.str sv, JVal.str d, JVal.str t⟩ =
      (Response.json 500 false "Server error" none,
        [Event.append cfg.googleSheetId "Sheet1!A:F"
            [JVal.str n, JVal.str p, JVal.str sv, JVal.str d, JVal.str t,
              JVal.str env.now],
          mailMessage cfg
            ⟨JVal.str n, JVal.str p, JVal.str sv, JVal.str d, JVal.str t⟩
            (cleanPhone p)]) := by
  simp [bookCallHandler, JVal.truthy, jsReplacePhone, saveToGoogleSheet,
    hn, hp, hsv, hd, ht, hsheets, happ, hsend]

/-- C4 witness: concrete valid body with a failing SMTP transport. -/
theorem c4_witness :
    bookCallHandler cfgTest envSendFail bodyJane =
      (Response.json 500 false "Server error" none,
        [Event.append cfgTest.googleSheetId "Sheet1!A:F"
            [JVal.str "Jane Doe", JVal.str "555-1234", JVal.str "Audit",
              JVal.str "2024-05-01", JVal.str "10:00",
              JVal.str envSendFail.now],
          mailMessage cfgTest bodyJane (cleanPhone "555-1234")]) :=
  c4_send_failure_generic_500 cfgTest envSendFail "Jane Doe" "555-1234"
    "Audit" "2024-05-01" "10:00" "SMTP error" (by decide) (by decide)
    (by decide) (by decide) (by decide) rfl rfl rfl

/-- C5: when the sheets client never initialized, a valid request skips
the append silently (no append event, no thrown error), still attempts the
send, and answers the success payload when the send succeeds. -/
theorem c5_sheets_unavailable_still_success (cfg : Config) (env : Env)
    (n p sv d t : String)
    (hn : n ≠ "") (hp : p ≠ "") (hsv : sv ≠ "") (hd : d ≠ "") (ht : t ≠ "")
    (hsheets : env.sheetsAvailable = false)
    (hsend : env.sendResult = Except.ok ()) :
    bookCallHandler cfg env
        ⟨JVal.str n, JVal.str p, JVal.str sv, JVal.str d, JVal.str t⟩ =
      (Response.json 200 true "Booking saved & email sent" none,
        [mailMessage cfg
          ⟨JVal.str n, JVal.str p, JVal.str sv, JVal.str d, JVal.str t⟩
          (cleanPhone p)]) := by
  simp [bookCallHandler, JVal.truthy, jsReplacePhone, saveToGoogleSheet,
    hn, hp, hsv, hd, ht, hsheets, hsend]

/-- C5 witness: concrete valid body with the sheets client down. -/
theorem c5_witness :
    bookCallHandler cfgTest envNoSheets bodyJane =
      (Response.json 200 true "Booking saved & email sent" none,
        [mailMessage cfgTest bodyJane (cleanPhone "555-1234")]) :=
  c5_sheets_unavailable_still_success cfgTest envNoSheets "Jane Doe"
    "555-1234" "Audit" "2024-05-01" "10:00" (by decide) (by decide)
    (by decide) (by decide) (by decide) rfl rfl

/-- C10: a phone field that is present and truthy but not a string passes
validation, makes `phone.replace` throw, and the outer catch turns that
into 500 `{success:false, message:"Server error"}` (not the 400 payload);
the handler returns normally and no external call is attempted. -/
theorem c10_nonstring_phone_500 (cfg : Config) (env : Env) (b : ReqBody)
    (hnt : b.name.truthy = true) (hpt : b.phone.truthy = true)
    (hsvt : b.service.truthy = true) (hdt : b.date.truthy = true)
    (htt : b.time.truthy = true)
    (hns : ∀ s : String, b.phone ≠ JVal.str s) :
    bookCallHandler cfg env b =
      (Response.json 500 false "Server error" none, []) := by
  have hrep : jsReplacePhone b.phone =
      Except.error "TypeError: phone.replace is not a function" := by
    cases hb : b.phone with
    | undef => rfl
    | null => rfl
    | str s => exact absurd hb (hns s)
    | num k => rfl
    | bool v => rfl
  simp [bookCallHandler, hnt, hpt, hsvt, hdt, htt, hrep]

/-- A body whose phone field is a JSON number. -/
def bodyNumPhone : ReqBody := { bodyJane with phone := JVal.num 5551234 }

/-- C10 witness: phone sent as the JSON number 5551234. -/
theorem c10_witness :
    bookCallHandler cfgTest envTest bodyNumPhone =
      (Response.json 500 false "Server error" none, []) :=
  c10_nonstring_phone_500 cfgTest envTest bodyNumPhone (by decide)
    (by decide) (by decide) (by decide) (by decide)
    (fun s h => by simp [bodyNumPhone, bodyJane] at h)

/-- The email HTML contains each interpolated value as a contiguous
substring, and the normalized phone prefixed by the `tel:` scheme. -/
theorem emailHtml_contains (n p sv d t cp : String) :
    containsSub (emailHtml n p sv d t cp) n
    ∧ containsSub (emailHtml n p sv d t cp) p
    ∧ containsSub (emailHtml n p sv d t cp) sv
    ∧ containsSub (emailHtml n p sv d t cp) d
    ∧ containsSub (emailHtml n p sv d t cp) t
    ∧ containsSub (emailHtml n p sv d t cp) ("tel:" ++ cp) := by
  refine
    ⟨⟨htmlC0, htmlC1 ++ p ++ htmlC2 ++ sv ++ htmlC3 ++ d ++ htmlC4 ++ t ++
        htmlC5 ++ cp ++ htmlC6, ?_⟩,
      ⟨htmlC0 ++ n ++ htmlC1, htmlC2 ++ sv ++ htmlC3 ++ d ++ htmlC4 ++ t ++
        htmlC5 ++ cp ++ htmlC6, ?_⟩,
      ⟨htmlC0 ++ n ++ htmlC1 ++ p ++ htmlC2, htmlC3 ++ d ++ htmlC4 ++ t ++
        htmlC5 ++ cp ++ htmlC6, ?_⟩,
      ⟨htmlC0 ++ n ++ htmlC1 ++ p ++ htmlC2 ++ sv ++ htmlC3, htmlC4 ++ t ++
        htmlC5 ++ cp ++ htmlC6, ?_⟩,
      ⟨htmlC0 ++ n ++ htmlC1 ++ p ++ htmlC2 ++ sv ++ htmlC3 ++ d ++ htmlC4,
        htmlC5 ++ cp ++ htmlC6, ?_⟩,
      ⟨htmlC0 ++ n ++ htmlC1 ++ p ++ htmlC2 ++ sv ++ htmlC3 ++ d ++ htmlC4 ++
        t ++ htmlC5a, htmlC6, ?_⟩⟩ <;>
    simp [emailHtml, htmlC5, String.append_assoc]

/-- C7: on a valid request with the sheets client up and the append
succeeding, exactly one row is appended, holding the five original field
values (the phone as originally supplied, not normalized) followed by the
server timestamp; and the response is unchanged when the timestamp
changes, so the timestamp is never echoed to the client. -/
theorem c7_row_contents_and_private_timestamp (cfg : Config) (env : Env)
    (n p sv d t : String)
    (hn : n ≠ "") (hp : p ≠ "") (hsv : sv ≠ "") (hd : d ≠ "") (ht : t ≠ "")
    (hsheets : env.sheetsAvailable = true)
    (happ : env.appendResult = Except.ok ()) :
    ((bookCallHandler cfg env
        ⟨JVal.str n, JVal.str p, JVal.str sv, JVal.str d,
          JVal.str t⟩).2.filter Event.isAppend =
      [Event.append cfg.googleSheetId "Sheet1!A:F"
          [JVal.str n, JVal.str p, JVal.str sv, JVal.str d, JVal.str t,
            JVal.str env.now]])
    ∧ ∀ t2 : String,
        (bookCallHandler cfg { env with now := t2 }
            ⟨JVal.str n, JVal.str p, JVal.str sv, JVal.str d,
              JVal.str t⟩).1 =
          (bookCallHandler cfg env
            ⟨JVal.str n, JVal.str p, JVal.str sv, JVal.str d,
              JVal.str t⟩).1 := by
  constructor
  · cases hsend : env.sendResult <;>
      simp [bookCallHandler, JVal.truthy, jsReplacePhone, saveToGoogleSheet,
        mailMessage, Event.isAppend, hn, hp, hsv, hd, ht, hsheets, happ,
        hsend]
  · intro t2
    cases hsend : env.sendResult <;>
      simp [bookCallHandler, JVal.truthy, jsReplacePhone, saveToGoogleSheet,
        hn, hp, hsv, hd, ht, hsheets, happ, hsend]

/-- C7 witness: the spec scenario row, and response invariance at one
concrete alternative timestamp. -/
theorem c7_witness :
    ((bookCallHandler cfgTest envTest bodyJane).2.filter Event.isAppend =
      [Event.append cfgTest.googleSheetId "Sheet1!A:F"
          [JVal.str "Jane Doe", JVal.str "555-1234", JVal.str "Audit",
            JVal.str "2024-05-01", JVal.str "10:00",
            JVal.str envTest.now]])
    ∧ (bookCallHandler cfgTest { envTest with now := "1/1/1999, 00:00:00" }
          bodyJane).1 =
        (bookCallHandler cfgTest envTest bodyJane).1 :=
  ⟨(c7_row_contents_and_private_timestamp cfgTest envTest "Jane Doe"
      "555-1234" "Audit" "2024-05-01" "10:00" (by decide) (by decide)
      (by decide) (by decide) (by decide) rfl rfl).1,
    (c7_row_contents_and_private_timestamp cfgTest envTest "Jane Doe"
      "555-1234" "Audit" "2024-05-01" "10:00" (by decide) (by decide)
      (by decide) (by decide) (by decide) rfl rfl).2 "1/1/1999, 00:00:00"⟩

/-- C8: whenever a valid request reaches the send step (sheets client down
or append succeeded), exactly one email is attempted, addressed to the
fixed administrative recipient `cfg.adminEmail`, and its HTML body
contains the five original field values and a `tel:` link built from the
normalized phone. -/
theorem c8_email_recipient_and_contents (cfg : Config) (env : Env)
    (n p sv d t : String)
    (hn : n ≠ "") (hp : p ≠ "") (hsv : sv ≠ "") (hd : d ≠ "") (ht : t ≠ "")
    (hsheet : env.sheetsAvailable = false
      ∨ env.appendResult = Except.ok ()) :
    ((bookCallHandler cfg env
        ⟨JVal.str n, JVal.str p, JVal.str sv, JVal.str d,
          JVal.str t⟩).2.filter Event.isSend =
      [Event.send ("\"TOMS Compliance\" <" ++ cfg.emailUser ++ ">")
          cfg.adminEmail "📞 New Free Call Booking"
          (emailHtml n p sv d t (cleanPhone p))])
    ∧ containsSub (emailHtml n p sv d t (cleanPhone p)) n
    ∧ containsSub (emailHtml n p sv d t (cleanPhone p)) p
    ∧ containsSub (emailHtml n p sv d t (cleanPhone p)) sv
    ∧ containsSub (emailHtml n p sv d t (cleanPhone p)) d
    ∧ containsSub (emailHtml n p sv d t (cleanPhone p)) t
    ∧ containsSub (emailHtml n p sv d t (cleanPhone p))
        ("tel:" ++ cleanPhone p) := by
  have hc := emailHtml_contains n p sv d t (cleanPhone p)
  refine ⟨?_, hc.1, hc.2.1, hc.2.2.1, hc.2.2.2.1, hc.2.2.2.2.1,
    hc.2.2.2.2.2⟩
  rcases hsheet with h | h
  · cases hsend : env.sendResult <;>
      simp [bookCallHandler, JVal.truthy, jsReplacePhone, saveToGoogleSheet,
        mailMessage, JVal.toDisplay, Event.isSend, hn, hp, hsv, hd, ht, h,
        hsend]
  · cases hav : env.sheetsAvailable <;> cases hsend : env.sendResult <;>
      simp [bookCallHandler, JVal.truthy, jsReplacePhone, saveToGoogleSheet,
        mailMessage, JVal.toDisplay, Event.isSend, hn, hp, hsv, hd, ht, h,
        hav, hsend]

/-- C8 witness: the spec scenario — the email goes to the admin address
with a `tel:5551234` link. -/
theorem c8_witness :
    ((bookCallHandler cfgTest envTest bodyJane).2.filter Event.isSend =
      [Event.send ("\"TOMS Compliance\" <" ++ cfgTest.emailUser ++ ">")
          cfgTest.adminEmail "📞 New Free Call Booking"
          (emailHtml "Jane Doe" "555-1234" "Audit" "2024-05-01" "10:00"
            (cleanPhone "555-1234"))])
    ∧ containsSub
        (emailHtml "Jane Doe" "555-1234" "Audit" "2024-05-01" "10:00"
          (cleanPhone "555-1234"))
        ("tel:" ++ cleanPhone "555-1234") :=
  ⟨(c8_email_recipient_and_contents cfgTest envTest "Jane Doe" "555-1234"
      "Audit" "2024-05-01" "10:00" (by decide) (by decide) (by decide)
      (by decide) (by decide) (Or.inr rfl)).1,
    (c8_email_recipient_and_contents cfgTest envTest "Jane Doe" "555-1234"
      "Audit" "2024-05-01" "10:00" (by decide) (by decide) (by decide)
      (by decide) (by decide) (Or.inr rfl)).2.2.2.2.2.2⟩

/-- C9 (counterexample): an empty-string Origin header is falsy in JS, so
the code allows it although it is not a member of the allow-list — the
claimed "allowed exactly when in the allow-list" fails for it. -/
theorem c9_counterexample :
    corsOriginAllowed (some "") = true
    ∧ allowedOrigins.contains "" = false := by decide

/-- C9 (amended): a request with no Origin header is always allowed; a
request with a non-empty Origin is allowed exactly when the Origin is in
the fixed allow-list (an empty-string Origin is treated like an absent
one and allowed); every rejected Origin is answered at the CORS layer with
no handler event. -/
theorem c9_cors_policy :
    corsOriginAllowed none = true
    ∧ (∀ o : String, o ≠ "" →
        (corsOriginAllowed (some o) = true ↔ o ∈ allowedOrigins))
    ∧ (∀ (origin : Option String) (cfg : Config) (env : Env) (b : ReqBody),
        corsOriginAllowed origin = false →
          processRequest origin cfg env b =
            (Response.corsBlocked "CORS blocked", [])) := by
  refine ⟨rfl, ?_, ?_⟩
  · intro o ho
    simp [corsOriginAllowed, ho]
  · intro origin cfg env b h
    simp [processRequest, h]

/-- C9 witness: a disallowed non-empty Origin is not in the allow-list and
is rejected before the handler runs. -/
theorem c9_witness :
    (corsOriginAllowed (some "https://evil.example") = true ↔
      "https://evil.example" ∈ allowedOrigins)
    ∧ processRequest (some "https://evil.example") cfgTest envTest
        bodyJane = (Response.corsBlocked "CORS blocked", []) :=
  ⟨c9_cors_policy.2.1 "https://evil.example" (by decide),
    c9_cors_policy.2.2 (some "https://evil.example") cfgTest envTest
      bodyJane (by decide)⟩

end TomsCompliance
